import Mathlib

/-!
Shallow embedding of the ai-client provider normalization code
(OpenAI, Claude, Gemini, Groq, Mistral clients) and proofs about it.

JS strings are modelled as Lean String for message contents and as
List Char where index arithmetic matters (the Groq reasoning-markup
stripper).  JS numbers are modelled as Rat.  Optional / possibly
undefined JS values are modelled as Option.
-/

/-- Message roles accepted by the generic conversation type. -/
inductive Role
  | system
  | user
  | assistant
  | tool
  | function
deriving DecidableEq, Repr

/-- A generic conversation message: role plus text content. -/
structure Message where
  role : Role
  content : String
deriving DecidableEq, Repr

/-- The ordinal thinking level. -/
inductive Thinking
  | off
  | low
  | medium
  | high
deriving DecidableEq, Repr

/-- Wire string of a thinking level (JS passes the literal strings). -/
def thinkingToString : Thinking → String
  | .off => "off"
  | .low => "low"
  | .medium => "medium"
  | .high => "high"

/-- Generic ask parameters, mirroring the AskParameters interface. -/
structure AskParameters where
  messages : Option (List Message) := none
  temperature : Option Rat := none
  maxTokens : Option Nat := none
  topP : Option Rat := none
  topK : Option Rat := none
  presencePenalty : Option Rat := none
  frequencyPenalty : Option Rat := none
  instructions : Option String := none
  thinking : Option Thinking := none
  user : Option String := none
deriving Repr

/-- JS truthiness of a possibly-undefined string (undefined, null and
the empty string are falsy). -/
def strTruthy : Option String → Bool
  | none => false
  | some s => !(s == "")

/-- JS truthiness of a possibly-undefined number (undefined and 0 are falsy). -/
def ratTruthy : Option Rat → Bool
  | none => false
  | some q => !(q == 0)

/-- A JS Error value, modelled by its message. -/
structure ErrorValue where
  message : String
deriving DecidableEq, Repr

/-- A value thrown by the provider SDK: either a real Error or any
other value, remembered by its String() rendering. -/
inductive ThrownValue
  | errorVal (message : String)
  | otherVal (stringRepr : String)
deriving DecidableEq, Repr

/-- The message carried by a thrown value after wrapping. -/
def thrownMessage : ThrownValue → String
  | .errorVal m => m
  | .otherVal s => s

/-- handleError from handleError.ts: an Error passes through, any other
thrown value is wrapped in an Error via String(). -/
def handleError : ThrownValue → ErrorValue
  | .errorVal m => ⟨m⟩
  | .otherVal s => ⟨s⟩

/-- Outcome of the underlying SDK call: it either returned a value or
threw one (before or during the call). -/
inductive SdkOutcome (α : Type)
  | ok (value : α)
  | threw (value : ThrownValue)

/-- Observable outcome of an ask call: a resolved text, a resolved
(returned) Error value, or a raised exception. -/
inductive AskOutcome (α : Type)
  | resolvedText (text : α)
  | resolvedError (e : ErrorValue)
  | raised (e : ErrorValue)
deriving DecidableEq, Repr

/-- Whether an ask outcome was a raised exception. -/
def AskOutcome.isRaised {α : Type} : AskOutcome α → Bool
  | .raised _ => true
  | _ => false

/-- Observable outcome of an askJson call. -/
inductive JsonOutcome
  | resolvedValue (parsed : Unit)
  | resolvedError (e : ErrorValue)
  | raised (e : ErrorValue)
deriving DecidableEq, Repr

/-- Whether an askJson outcome was a raised exception. -/
def JsonOutcome.isRaised : JsonOutcome → Bool
  | .raised _ => true
  | _ => false

/-- Outcome of consuming a stream: the fragments yielded, possibly
terminated by a raised error. -/
inductive StreamOutcome
  | yielded (fragments : List (List Char))
  | raisedAfter (fragments : List (List Char)) (e : ErrorValue)
deriving DecidableEq, Repr

/-! ## Groq reasoning-markup stripper (stripThinking) -/

/-- The opening marker of Groq visible reasoning. -/
def thinkOpenTag : List Char := "<think>".data

/-- The closing marker of Groq visible reasoning. -/
def thinkCloseTag : List Char := "</think>".data

/-- JS whitespace test used by trimStart (the common code points). -/
def isJsWhitespace (c : Char) : Bool :=
  c == ' ' || c == '\t' || c == '\n' || c == '\r' ||
  c == Char.ofNat 11 || c == Char.ofNat 12 ||
  c == Char.ofNat 0xA0 || c == Char.ofNat 0xFEFF ||
  c == Char.ofNat 0x2028 || c == Char.ofNat 0x2029

/-- JS String.prototype.trimStart. -/
def trimStart (s : List Char) : List Char := s.dropWhile isJsWhitespace

/-- Scans indices n, n-1, ..., 0 for the greatest start of an occurrence
of pat (the search order of JS lastIndexOf). -/
def lastIndexOfAux (s pat : List Char) : Nat → Option Nat
  | 0 => if pat.isPrefixOf (s.drop 0) then some 0 else none
  | i + 1 => if pat.isPrefixOf (s.drop (i + 1)) then some (i + 1) else lastIndexOfAux s pat i

/-- JS String.prototype.lastIndexOf: greatest index at which pat occurs,
or -1 when it does not occur. -/
def lastIndexOf (s pat : List Char) : Int :=
  match lastIndexOfAux s pat s.length with
  | some i => (i : Int)
  | none => -1

/-- stripThinking from GroqClient.ts: when the value starts with the
opening marker, drop everything up to the end of the last closing
marker and trim leading whitespace; otherwise pass through. -/
def stripThinking : Option (List Char) → Option (List Char)
  | none => none
  | some value =>
    if thinkOpenTag.isPrefixOf value then
      let stopThinkingAt : Int := lastIndexOf value thinkCloseTag + (thinkCloseTag.length : Int)
      some (trimStart (value.drop stopThinkingAt.toNat))
    else
      some value

/-! ## Groq client -/

namespace Groq

/-- The Groq model identifiers. -/
inductive GroqModel
  | llama33_70b_versatile
  | llama31_8b_instant
  | gptOss20b
  | gptOss120b
  | kimiK2Instruct
  | llama4Maverick
  | llama4Scout
  | deepseekR1DistillLlama70b
  | qwen3_32b
deriving DecidableEq, Repr

/-- getReasoningEffortByModel from GroqClient.ts: the per-model mapping
from thinking level to the wire reasoning_effort value (none models the
functions returning undefined). -/
def getReasoningEffortByModel : GroqModel → Thinking → Option String
  | .gptOss20b, value => if value == .off then some "low" else some (thinkingToString value)
  | .gptOss120b, value => if value == .off then some "low" else some (thinkingToString value)
  | .qwen3_32b, value => if value == .off then some "none" else some "default"
  | _, _ => none

/-- Client construction parameters relevant to request building. -/
structure GroqClientParameters where
  model : GroqModel
  instructions : Option String := none
  thinking : Option Thinking := none
deriving Repr

/-- The role rewrite of the final mapping step in Groq prepareMessages. -/
def mapGroqRole : Role → Role
  | .function => .user
  | .tool => .user
  | r => r

/-- prepareMessages from GroqClient.ts. -/
def prepareMessages (askParameters : AskParameters) (systemPrompt : Option String) :
    List Message :=
  let messages := askParameters.messages
  let preparedMessages : Option (List Message) :=
    if strTruthy systemPrompt then
      let sp := systemPrompt.getD ""
      if !((messages.getD []).any (fun msg => msg.role == .system)) then
        some (⟨.system, sp⟩ :: messages.getD [])
      else
        Option.map
          (fun ms => List.map
            (fun msg =>
              if msg.role == .system then
                ⟨msg.role, msg.content ++ "\n\n" ++ sp⟩
              else msg) ms)
          messages
    else messages
  List.map (fun msg => ⟨mapGroqRole msg.role, msg.content⟩) (preparedMessages.getD [])

/-- The wire-shaped Groq completion request. -/
structure GroqCompletionParams where
  model : GroqModel
  messages : List Message
  temperature : Option Rat
  max_tokens : Option Nat
  top_p : Option Rat
  presence_penalty : Option Rat
  frequency_penalty : Option Rat
  user : Option String
  reasoning_effort : Option String
  include_reasoning : Option Bool
deriving Repr

/-- createBaseCompletionParams from GroqClient.ts. -/
def createBaseCompletionParams (clientParameters : GroqClientParameters)
    (askParameters : AskParameters) : GroqCompletionParams :=
  let instructions := askParameters.instructions.orElse (fun _ => clientParameters.instructions)
  let thinking := askParameters.thinking.orElse (fun _ => clientParameters.thinking)
  let reasoningEffort :=
    thinking.bind (fun t => getReasoningEffortByModel clientParameters.model t)
  { model := clientParameters.model
    messages := prepareMessages askParameters instructions
    temperature := askParameters.temperature
    max_tokens := askParameters.maxTokens
    top_p := if ratTruthy askParameters.temperature then none else askParameters.topP
    presence_penalty := askParameters.presencePenalty
    frequency_penalty := askParameters.frequencyPenalty
    user := askParameters.user
    reasoning_effort := reasoningEffort
    include_reasoning := if strTruthy reasoningEffort then some false else none }

/-- The text produced by Groq ask from the raw response content:
stripThinking is applied and a falsy result becomes the empty string. -/
def askText (raw : Option (List Char)) : List Char :=
  match stripThinking raw with
  | some s => s
  | none => []

/-- The observable outcome of Groq ask, given the SDK call outcome:
the whole body sits in a try/catch returning handleError of anything
thrown. -/
def askOutcome (sdkResult : SdkOutcome (Option (List Char))) : AskOutcome (List Char) :=
  match sdkResult with
  | .threw v => .resolvedError (handleError v)
  | .ok raw => .resolvedText (askText raw)

/-- The JSON.parse plus valibot validation step of askJson, modelled as
an external collaborator that returns or throws; a throw is caught by
the surrounding try/catch. -/
def jsonParseResult (parseStep : List Char → SdkOutcome Unit) (content : List Char) :
    JsonOutcome :=
  match parseStep content with
  | .ok u => .resolvedValue u
  | .threw v => .resolvedError (handleError v)

/-- The observable outcome of Groq askJson, given the SDK call outcome
and the parse collaborator. -/
def askJsonOutcome (sdkResult : SdkOutcome (Option (List Char)))
    (parseStep : List Char → SdkOutcome Unit) : JsonOutcome :=
  match sdkResult with
  | .threw v => .resolvedError (handleError v)
  | .ok raw =>
    match stripThinking raw with
    | none => .resolvedError ⟨"No response content received"⟩
    | some content =>
      if content == [] then .resolvedError ⟨"No response content received"⟩
      else jsonParseResult parseStep content

/-- The chunk source seen by the stream loop: a finished list of deltas,
or some deltas followed by a throw mid-iteration. -/
inductive ChunkStream
  | ended (chunks : List (Option (List Char)))
  | thenThrew (chunks : List (Option (List Char))) (v : ThrownValue)

/-- The fragments actually yielded: only truthy delta contents. -/
def truthyContents (chunks : List (Option (List Char))) : List (List Char) :=
  (chunks.filterMap id).filter (fun s => !(s == []))

/-- The observable outcome of Groq stream: a throw anywhere (creation or
iteration) is re-raised as handleError of the thrown value. -/
def streamOutcome : SdkOutcome ChunkStream → StreamOutcome
  | .threw v => .raisedAfter [] (handleError v)
  | .ok (.ended chunks) => .yielded (truthyContents chunks)
  | .ok (.thenThrew chunks v) => .raisedAfter (truthyContents chunks) (handleError v)

end Groq

/-! ## Claude client -/

namespace Claude

/-- The Claude model identifiers. -/
inductive ClaudeModel
  | sonnet4
  | opus41
  | haiku35
deriving DecidableEq, Repr

/-- Client construction parameters relevant to request building. -/
structure ClaudeClientParameters where
  model : ClaudeModel
  instructions : Option String := none
  thinking : Option Thinking := none
deriving Repr

/-- The role rewrite of the mapping step in Claude prepareMessages. -/
def mapClaudeRole : Role → Role
  | .function => .user
  | .tool => .user
  | .system => .user
  | r => r

/-- The result of Claude prepareMessages: the side-channel system
string plus the outgoing message list. -/
structure PreparedMessages where
  system : Option String
  messages : List Message
deriving DecidableEq, Repr

/-- prepareMessages from claude.ts: the first system message (when
present) is extracted and removed, otherwise a truthy systemPrompt is
used; remaining unsupported roles are rewritten to user. -/
def prepareMessages (messages : List Message) (systemPrompt : Option String) :
    PreparedMessages :=
  match messages.findIdx? (fun msg => msg.role == .system) with
  | some i =>
    { system := (messages[i]?).map Message.content
      messages := (messages.eraseIdx i).map (fun msg => ⟨mapClaudeRole msg.role, msg.content⟩) }
  | none =>
    { system := if strTruthy systemPrompt then systemPrompt else none
      messages := messages.map (fun msg => ⟨mapClaudeRole msg.role, msg.content⟩) }

/-- The wire-shaped Claude message-create request. -/
structure ClaudeCompletionParams where
  model : ClaudeModel
  system : Option String
  messages : List Message
  temperature : Option Rat
  max_tokens : Nat
  top_p : Option Rat
  top_k : Option Rat
deriving Repr

/-- createBaseCompletionParams from claude.ts. -/
def createBaseCompletionParams (clientParameters : ClaudeClientParameters)
    (askParameters : AskParameters) : ClaudeCompletionParams :=
  let prepared := prepareMessages (askParameters.messages.getD [])
    (askParameters.instructions.orElse (fun _ => clientParameters.instructions))
  { model := clientParameters.model
    system := prepared.system
    messages := prepared.messages
    temperature := askParameters.temperature
    max_tokens := askParameters.maxTokens.getD 4096
    top_p := if askParameters.temperature.isSome then none else askParameters.topP
    top_k := askParameters.topK }

/-- A Claude response content block. -/
inductive ClaudeContentBlock
  | textBlock (text : String)
  | toolUseBlock (inputRepr : String)
deriving DecidableEq, Repr

/-- The text Claude ask extracts from a response: the first content
block when it is a text block, the empty string otherwise. -/
def askText (content : List ClaudeContentBlock) : String :=
  match content[0]? with
  | some (ClaudeContentBlock.textBlock t) => t
  | _ => ""

/-- The observable outcome of Claude ask given the SDK call outcome. -/
def askOutcome (sdkResult : SdkOutcome (List ClaudeContentBlock)) : AskOutcome String :=
  match sdkResult with
  | .threw v => .resolvedError (handleError v)
  | .ok content => .resolvedText (askText content)

end Claude

/-! ## OpenAI client -/

namespace OpenAi

/-- The OpenAI model identifiers. -/
inductive OpenAiModel
  | gpt41
  | gpt41mini
  | gpt41nano
  | gpt5
  | gpt5mini
  | gpt5nano
  | o3
  | o3mini
  | o4mini
deriving DecidableEq, Repr

/-- Models that only accept their default sampling parameters. -/
def modelsWithTemperatureRestrictions : List OpenAiModel :=
  [.gpt5, .gpt5mini, .gpt5nano, .o3, .o3mini, .o4mini]

/-- Models that accept the reasoning_effort field. -/
def thinkingModels : List OpenAiModel :=
  [.gpt5, .gpt5mini, .gpt5nano, .o3, .o3mini, .o4mini]

/-- Client construction parameters relevant to request building. -/
structure OpenAiClientParameters where
  model : OpenAiModel
  instructions : Option String := none
  thinking : Option Thinking := none
deriving Repr

/-- The role rewrite of the mapping step in OpenAI prepareMessages. -/
def mapOpenAiRole : Role → Role
  | .function => .user
  | .tool => .user
  | r => r

/-- prepareMessages from the OpenAI client: a truthy systemPrompt is
prepended only when no system message exists (an existing system
message is left alone); unsupported roles are rewritten to user. -/
def prepareMessages (messages : List Message) (systemPrompt : Option String) :
    List Message :=
  let preparedMessages :=
    if strTruthy systemPrompt then
      if !(messages.any (fun msg => msg.role == .system)) then
        ⟨.system, systemPrompt.getD ""⟩ :: messages
      else messages
    else messages
  preparedMessages.map (fun msg => ⟨mapOpenAiRole msg.role, msg.content⟩)

/-- The wire-shaped OpenAI completion request. -/
structure OpenAiCompletionParams where
  model : OpenAiModel
  messages : List Message
  reasoning_effort : Option String
  temperature : Option Rat
  max_completion_tokens : Option Nat
  top_p : Option Rat
  presence_penalty : Option Rat
  frequency_penalty : Option Rat
  user : Option String
deriving Repr

/-- createBaseCompletionParams from the OpenAI client. -/
def createBaseCompletionParams (clientParameters : OpenAiClientParameters)
    (askParameters : AskParameters) : OpenAiCompletionParams :=
  let model := clientParameters.model
  let hasTemperatureRestriction := modelsWithTemperatureRestrictions.contains model
  let isThinkingModel := thinkingModels.contains model
  let reasoningEffort := askParameters.thinking.orElse (fun _ => clientParameters.thinking)
  { model := model
    messages := prepareMessages (askParameters.messages.getD [])
      (askParameters.instructions.orElse (fun _ => clientParameters.instructions))
    reasoning_effort :=
      if !isThinkingModel then none
      else
        match reasoningEffort with
        | some .off => some "low"
        | some t => some (thinkingToString t)
        | none => none
    temperature := if hasTemperatureRestriction then none else askParameters.temperature
    max_completion_tokens := askParameters.maxTokens
    top_p :=
      if hasTemperatureRestriction || askParameters.temperature.isSome then none
      else askParameters.topP
    presence_penalty := if hasTemperatureRestriction then none else askParameters.presencePenalty
    frequency_penalty := if hasTemperatureRestriction then none else askParameters.frequencyPenalty
    user := askParameters.user }

end OpenAi

/-! ## Mistral client -/

namespace Mistral

/-- The Mistral model identifiers. -/
inductive MistralModel
  | magistralMediumLatest
  | magistralSmallLatest
  | mistralMediumLatest
  | mistralLargeLatest
  | ministral3bLatest
  | ministral8bLatest
  | openMistralNemo
  | mistralSmallLatest
  | devstralSmallLatest
  | devstralMediumLatest
  | mistralSabaLatest
deriving DecidableEq, Repr

/-- Client construction parameters relevant to request building. -/
structure MistralClientParameters where
  model : MistralModel
  instructions : Option String := none
  thinking : Option Thinking := none
deriving Repr

/-- The role rewrite of the mapping step in Mistral prepareMessages:
function becomes tool, every other role is kept. -/
def mapMistralRole : Role → Role
  | .function => .tool
  | r => r

/-- prepareMessages from mistral.ts. -/
def prepareMessages (messages : List Message) (systemPrompt : Option String) :
    List Message :=
  let preparedMessages :=
    if strTruthy systemPrompt then
      if !(messages.any (fun msg => msg.role == .system)) then
        ⟨.system, systemPrompt.getD ""⟩ :: messages
      else messages
    else messages
  preparedMessages.map (fun msg => ⟨mapMistralRole msg.role, msg.content⟩)

/-- The wire-shaped Mistral chat request built by ask. -/
structure MistralChatParams where
  model : MistralModel
  messages : List Message
  temperature : Option Rat
  maxTokens : Option Nat
  topP : Option Rat
deriving Repr

/-- The request the Mistral ask method builds: the user input is
appended, topP is dropped exactly when temperature === 0 (the greedy
sampling handling), and instructions resolve ask-over-client. -/
def buildAskChatParams (clientParameters : MistralClientParameters) (input : String)
    (askParameters : AskParameters) : MistralChatParams :=
  let updatedMessages := (askParameters.messages.getD []) ++ [⟨.user, input⟩]
  let temperature := askParameters.temperature
  let topP := if temperature == some 0 then none else askParameters.topP
  { model := clientParameters.model
    messages := prepareMessages updatedMessages
      (askParameters.instructions.orElse (fun _ => clientParameters.instructions))
    temperature := temperature
    maxTokens := askParameters.maxTokens
    topP := topP }

end Mistral

/-! ## Gemini client -/

namespace Gemini

/-- The Gemini model identifiers. -/
inductive GeminiModel
  | pro25
  | flash25
  | flashLite25
deriving DecidableEq, Repr

/-- Models that only operate with thinking enabled. -/
def thinkingOnlyModels : List GeminiModel := [.pro25]

/-- Client construction parameters relevant to request building. -/
structure GeminiClientParameters where
  model : GeminiModel
  instructions : Option String := none
  thinking : Option Thinking := none
deriving Repr

/-- A Gemini content entry: role string plus text parts. -/
structure GeminiContent where
  role : String
  parts : List String
deriving DecidableEq, Repr

/-- prepareMessages from the Gemini client: system messages are
filtered out, assistant maps to model, tool and function map to user. -/
def prepareMessages (messages : List Message) : List GeminiContent :=
  (messages.filter (fun msg => !(msg.role == .system))).map
    (fun msg =>
      if msg.role == .function || msg.role == .tool then
        ⟨"user", [msg.content]⟩
      else
        ⟨if msg.role == .assistant then "model" else "user", [msg.content]⟩)

/-- extractSystemPrompt from the Gemini client: a truthy systemPrompt
wins, otherwise the first system message content is used. -/
def extractSystemPrompt (messages : List Message) (systemPrompt : Option String) :
    Option String :=
  if strTruthy systemPrompt then systemPrompt
  else (messages.find? (fun msg => msg.role == .system)).map Message.content

/-- The per-level thinking budget in tokens. -/
def thinkingBudgetTokens : Thinking → Nat
  | .off => 0
  | .low => 512
  | .medium => 2048
  | .high => 24576

/-- The Gemini thinking configuration field. -/
structure ThinkingConfig where
  includeThoughts : Bool
  thinkingBudget : Nat
deriving DecidableEq, Repr

/-- The Gemini generation configuration (unset fields are none). -/
structure GenerateContentConfig where
  temperature : Option Rat := none
  maxOutputTokens : Option Nat := none
  topP : Option Rat := none
  topK : Option Rat := none
  thinkingConfig : Option ThinkingConfig := none
  systemInstruction : Option String := none
deriving Repr

/-- createGenerationConfig from the Gemini client. -/
def createGenerationConfig (clientParameters : GeminiClientParameters)
    (askParameters : AskParameters) : GenerateContentConfig :=
  let reasoningEffort0 := askParameters.thinking.orElse (fun _ => clientParameters.thinking)
  let reasoningEffort :=
    if reasoningEffort0 == some .off && thinkingOnlyModels.contains clientParameters.model then
      some Thinking.low
    else reasoningEffort0
  let systemInstruction := extractSystemPrompt (askParameters.messages.getD [])
    (askParameters.instructions.orElse (fun _ => clientParameters.instructions))
  { temperature := askParameters.temperature
    maxOutputTokens := askParameters.maxTokens
    topP :=
      if askParameters.topP.isSome && askParameters.temperature == none then askParameters.topP
      else none
    topK := askParameters.topK
    thinkingConfig := reasoningEffort.map (fun r => ⟨false, thinkingBudgetTokens r⟩)
    systemInstruction := if strTruthy systemInstruction then systemInstruction else none }

end Gemini

/-! ## Shared helper lemmas -/

/-- All elements of a mapped list satisfy p when p holds after f. -/
theorem all_map_of_forall {α β : Type} (f : α → β) (p : β → Bool)
    (h : ∀ a, p (f a) = true) (l : List α) : (l.map f).all p = true := by
  induction l with
  | nil => rfl
  | cons a l ih => simp [List.all_cons, h a, ih]

/-- BEq on some values reduces to BEq on the contents. -/
theorem some_beq_some {α : Type} [BEq α] (a b : α) :
    ((some a == some b) : Bool) = (a == b) := rfl

/-- BEq of some against none is false. -/
theorem some_beq_none {α : Type} [BEq α] (a : α) :
    ((some a == (none : Option α)) : Bool) = false := rfl

/-! ## Claim theorems -/

/-- C10: the Claude client defaults max_tokens to 4096 whenever the
caller supplies no maxTokens, and forwards a supplied value unchanged
(the field is always present on the wire, its type being Nat). -/
theorem claude_max_tokens_defaulted (cp : Claude.ClaudeClientParameters)
    (ap : AskParameters) :
    (Claude.createBaseCompletionParams cp { ap with maxTokens := none }).max_tokens = 4096 ∧
    ∀ v : Nat,
      (Claude.createBaseCompletionParams cp { ap with maxTokens := some v }).max_tokens = v := by
  exact ⟨rfl, fun v => rfl⟩

/-- C6: for every OpenAI model with a temperature restriction, none of
temperature, topP, presencePenalty, frequencyPenalty reaches the
emitted provider request, whatever the caller supplied. -/
theorem openai_temperature_locked_gating (cp : OpenAi.OpenAiClientParameters)
    (ap : AskParameters)
    (h : OpenAi.modelsWithTemperatureRestrictions.contains cp.model = true) :
    (OpenAi.createBaseCompletionParams cp ap).temperature = none ∧
    (OpenAi.createBaseCompletionParams cp ap).top_p = none ∧
    (OpenAi.createBaseCompletionParams cp ap).presence_penalty = none ∧
    (OpenAi.createBaseCompletionParams cp ap).frequency_penalty = none := by
  have hmem : cp.model ∈ OpenAi.modelsWithTemperatureRestrictions := by
    simpa using h
  refine ⟨?_, ?_, ?_, ?_⟩ <;> simp [OpenAi.createBaseCompletionParams, hmem]

/-- Witness for C6 at the gpt-5 model with every gated field supplied. -/
theorem openai_temperature_locked_gating_witness :
    OpenAi.modelsWithTemperatureRestrictions.contains OpenAi.OpenAiModel.gpt5 = true ∧
    ((OpenAi.createBaseCompletionParams { model := OpenAi.OpenAiModel.gpt5 }
        { temperature := some 1, topP := some 1, presencePenalty := some 2,
          frequencyPenalty := some 2 }).temperature = none ∧
      (OpenAi.createBaseCompletionParams { model := OpenAi.OpenAiModel.gpt5 }
        { temperature := some 1, topP := some 1, presencePenalty := some 2,
          frequencyPenalty := some 2 }).top_p = none ∧
      (OpenAi.createBaseCompletionParams { model := OpenAi.OpenAiModel.gpt5 }
        { temperature := some 1, topP := some 1, presencePenalty := some 2,
          frequencyPenalty := some 2 }).presence_penalty = none ∧
      (OpenAi.createBaseCompletionParams { model := OpenAi.OpenAiModel.gpt5 }
        { temperature := some 1, topP := some 1, presencePenalty := some 2,
          frequencyPenalty := some 2 }).frequency_penalty = none) := by
  refine ⟨by decide, ?_⟩
  exact openai_temperature_locked_gating { model := OpenAi.OpenAiModel.gpt5 } _ (by decide)

/-- C7: against a Groq model whose reasoning-effort mapping yields
nothing for every thinking level, the built request carries no
thinking-related field (and building is a total function, so it cannot
raise); likewise an OpenAI model outside the thinking set gets no
reasoning_effort field. -/
theorem thinking_graceful_degradation (cp : Groq.GroqClientParameters)
    (ap : AskParameters)
    (h : ∀ t, Groq.getReasoningEffortByModel cp.model t = none) :
    ((Groq.createBaseCompletionParams cp ap).reasoning_effort = none ∧
      (Groq.createBaseCompletionParams cp ap).include_reasoning = none) ∧
    ∀ (ocp : OpenAi.OpenAiClientParameters) (oap : AskParameters),
      OpenAi.thinkingModels.contains ocp.model = false →
      (OpenAi.createBaseCompletionParams ocp oap).reasoning_effort = none := by
  constructor
  · have hre : (ap.thinking.orElse fun _ => cp.thinking).bind
        (fun t => Groq.getReasoningEffortByModel cp.model t) = none := by
      cases ap.thinking.orElse fun _ => cp.thinking with
      | none => rfl
      | some t => exact h t
    constructor
    · simp [Groq.createBaseCompletionParams, hre]
    · simp [Groq.createBaseCompletionParams, hre, strTruthy]
  · intro ocp oap hm
    have hnmem : ocp.model ∉ OpenAi.thinkingModels := by
      simpa using hm
    simp [OpenAi.createBaseCompletionParams, hnmem]

/-- Witness for C7: thinking high on a Groq llama model and an OpenAI
gpt-4.1 model produces no thinking field. -/
theorem thinking_graceful_degradation_witness :
    (∀ t, Groq.getReasoningEffortByModel Groq.GroqModel.llama33_70b_versatile t = none) ∧
    ((Groq.createBaseCompletionParams { model := Groq.GroqModel.llama33_70b_versatile }
        { thinking := some Thinking.high }).reasoning_effort = none ∧
      (Groq.createBaseCompletionParams { model := Groq.GroqModel.llama33_70b_versatile }
        { thinking := some Thinking.high }).include_reasoning = none) ∧
    (OpenAi.createBaseCompletionParams { model := OpenAi.OpenAiModel.gpt41 }
        { thinking := some Thinking.high }).reasoning_effort = none := by
  have h : ∀ t, Groq.getReasoningEffortByModel Groq.GroqModel.llama33_70b_versatile t = none := by
    intro t
    cases t <;> rfl
  have hmain := thinking_graceful_degradation
    { model := Groq.GroqModel.llama33_70b_versatile } { thinking := some Thinking.high } h
  exact ⟨h, hmain.1, hmain.2 { model := OpenAi.OpenAiModel.gpt41 } _ (by decide)⟩

/-- C3: a throw from the provider SDK resolves ask and askJson to a
returned Error value whose message is the thrown Error message (or the
String rendering of a non-Error value); ask and askJson never raise;
stream re-raises the wrapped error at the point of iteration. -/
theorem provider_failure_propagation :
    (∀ v, Groq.askOutcome (.threw v) = .resolvedError ⟨thrownMessage v⟩) ∧
    (∀ v p, Groq.askJsonOutcome (.threw v) p = .resolvedError ⟨thrownMessage v⟩) ∧
    (∀ sdk, (Groq.askOutcome sdk).isRaised = false) ∧
    (∀ sdk p, (Groq.askJsonOutcome sdk p).isRaised = false) ∧
    (∀ v, Groq.streamOutcome (.threw v) = .raisedAfter [] ⟨thrownMessage v⟩) ∧
    (∀ chunks v, Groq.streamOutcome (.ok (.thenThrew chunks v)) =
      .raisedAfter (Groq.truthyContents chunks) ⟨thrownMessage v⟩) ∧
    (∀ m, handleError (.errorVal m) = ⟨m⟩) ∧
    (∀ s, handleError (.otherVal s) = ⟨s⟩) ∧
    (∀ v, Claude.askOutcome (.threw v) = .resolvedError ⟨thrownMessage v⟩) := by
  have hhe : ∀ v, handleError v = ⟨thrownMessage v⟩ := by
    intro v
    cases v <;> rfl
  refine ⟨?_, ?_, ?_, ?_, ?_, ?_, ?_, ?_, ?_⟩
  · intro v
    simp [Groq.askOutcome, hhe]
  · intro v p
    simp [Groq.askJsonOutcome, hhe]
  · intro sdk
    cases sdk with
    | threw v => rfl
    | ok raw => rfl
  · intro sdk p
    cases sdk with
    | threw v => rfl
    | ok raw =>
      simp only [Groq.askJsonOutcome]
      cases stripThinking raw with
      | none => rfl
      | some content =>
        cases hc : (content == ([] : List Char)) with
        | true => simp [hc, JsonOutcome.isRaised]
        | false =>
          simp only [hc, Bool.false_eq_true, if_false, Groq.jsonParseResult]
          cases p content with
          | ok u => rfl
          | threw v => rfl
  · intro v
    simp [Groq.streamOutcome, hhe]
  · intro chunks v
    simp [Groq.streamOutcome, hhe]
  · intro m
    rfl
  · intro s
    rfl
  · intro v
    simp [Claude.askOutcome, hhe]

/-- C8: empty or absent response text makes ask resolve to the empty
string (not an Error), while askJson with the same content resolves to
the fixed empty-response Error value, and neither raises. -/
theorem empty_content_handling :
    (Groq.askOutcome (.ok none) = .resolvedText []) ∧
    (Groq.askOutcome (.ok (some [])) = .resolvedText []) ∧
    (∀ p, Groq.askJsonOutcome (.ok none) p =
      .resolvedError ⟨"No response content received"⟩) ∧
    (∀ p, Groq.askJsonOutcome (.ok (some [])) p =
      .resolvedError ⟨"No response content received"⟩) ∧
    (∀ p, (Groq.askJsonOutcome (.ok none) p).isRaised = false) ∧
    (∀ p, (Groq.askJsonOutcome (.ok (some [])) p).isRaised = false) ∧
    (Claude.askOutcome (.ok []) = .resolvedText "") ∧
    (Claude.askOutcome (.ok [Claude.ClaudeContentBlock.textBlock ""]) = .resolvedText "") := by
  exact ⟨rfl, rfl, fun p => rfl, fun p => rfl, fun p => rfl, fun p => rfl, rfl, rfl⟩

/-! ## lastIndexOf characterization (for the C9 stripThinking claim) -/

/-- The downward scan returns j when j is an occurrence and no index in
(j, n] is one. -/
theorem lastIndexOfAux_eq_some (s pat : List Char) (j : Nat) :
    ∀ n, pat.isPrefixOf (s.drop j) = true → j ≤ n →
      (∀ k, j < k → k ≤ n → pat.isPrefixOf (s.drop k) = false) →
      lastIndexOfAux s pat n = some j := by
  intro n
  induction n with
  | zero =>
    intro hj hle _
    have hz : j = 0 := Nat.le_zero.mp hle
    subst hz
    have hunfold : lastIndexOfAux s pat 0 =
        if pat.isPrefixOf (s.drop 0) then some 0 else none := rfl
    rw [hunfold, if_pos hj]
  | succ n ih =>
    intro hj hle hmax
    have hunfold : lastIndexOfAux s pat (n + 1) =
        if pat.isPrefixOf (s.drop (n + 1)) then some (n + 1)
        else lastIndexOfAux s pat n := rfl
    cases hc : pat.isPrefixOf (s.drop (n + 1)) with
    | true =>
      have hjn : j = n + 1 := by
        by_contra hne
        have hlt : j < n + 1 := Nat.lt_of_le_of_ne hle hne
        have hfalse := hmax (n + 1) hlt (Nat.le_refl _)
        rw [hfalse] at hc
        exact Bool.false_ne_true hc
      subst hjn
      rw [hunfold, if_pos hc]
    | false =>
      have hjn : j ≤ n := by
        by_contra hgt
        have hjeq : j = n + 1 := by omega
        rw [hjeq] at hj
        rw [hj] at hc
        exact Bool.false_ne_true hc.symm
      have hnc : ¬ (pat.isPrefixOf (s.drop (n + 1)) = true) := by
        rw [hc]
        exact Bool.false_ne_true
      rw [hunfold, if_neg hnc]
      exact ih hj hjn (fun k hk1 hk2 => hmax k hk1 (Nat.le_succ_of_le hk2))

/-- lastIndexOf returns j when j is an occurrence of a nonempty pattern
and every occurrence lies at or before j. -/
theorem lastIndexOf_eq_of_isLast (s pat : List Char) (j : Nat)
    (hne : pat ≠ [])
    (hocc : pat.isPrefixOf (s.drop j) = true)
    (hmax : ∀ k, k < s.length → pat.isPrefixOf (s.drop k) = true → k ≤ j) :
    lastIndexOf s pat = (j : Int) := by
  have hplen : pat.isPrefixOf ([] : List Char) = false := by
    cases pat with
    | nil => exact absurd rfl hne
    | cons a l => rfl
  have hjlt : j < s.length := by
    by_contra hge
    have hdrop : s.drop j = [] := List.drop_eq_nil_of_le (by omega)
    rw [hdrop, hplen] at hocc
    exact Bool.false_ne_true hocc
  have haux : lastIndexOfAux s pat s.length = some j := by
    apply lastIndexOfAux_eq_some s pat j s.length hocc (by omega)
    intro k hk1 hk2
    rcases Nat.lt_or_ge k s.length with hkl | hkl
    · cases hkk : pat.isPrefixOf (s.drop k) with
      | false => rfl
      | true => exact absurd (hmax k hkl hkk) (by omega)
    · have hdrop : s.drop k = [] := List.drop_eq_nil_of_le (by omega)
      rw [hdrop]
      exact hplen
  unfold lastIndexOf
  rw [haux]

/-- C9: when the Groq response text starts with the opening reasoning
marker and the closing marker occurs (j being its last occurrence),
stripThinking removes everything up to the end of that last occurrence
and trims leading whitespace; ask returns exactly that stripped text,
and askJson hands exactly that stripped text to the JSON parsing step;
text not starting with the opening marker passes through unchanged even
when it contains the closing marker. -/
theorem groq_strip_thinking_spec :
    (∀ (v : List Char) (j : Nat),
      thinkOpenTag.isPrefixOf v = true →
      thinkCloseTag.isPrefixOf (v.drop j) = true →
      (∀ k, k < v.length → thinkCloseTag.isPrefixOf (v.drop k) = true → k ≤ j) →
      stripThinking (some v) = some (trimStart (v.drop (j + 8))) ∧
      Groq.askOutcome (.ok (some v)) = .resolvedText (trimStart (v.drop (j + 8))) ∧
      (∀ p, trimStart (v.drop (j + 8)) ≠ [] →
        Groq.askJsonOutcome (.ok (some v)) p =
          Groq.jsonParseResult p (trimStart (v.drop (j + 8))))) ∧
    (∀ v : List Char, thinkOpenTag.isPrefixOf v = false →
      stripThinking (some v) = some v ∧
      Groq.askOutcome (.ok (some v)) = .resolvedText v) := by
  constructor
  · intro v j hopen hocc hmax
    have hli : lastIndexOf v thinkCloseTag = (j : Int) :=
      lastIndexOf_eq_of_isLast v thinkCloseTag j (by decide) hocc hmax
    have hstrip : stripThinking (some v) = some (trimStart (v.drop (j + 8))) := by
      have hunfold : stripThinking (some v) =
          if thinkOpenTag.isPrefixOf v then
            some (trimStart
              (v.drop (lastIndexOf v thinkCloseTag + (thinkCloseTag.length : Int)).toNat))
          else some v := rfl
      rw [hunfold, if_pos hopen, hli]
      have hlen : (thinkCloseTag.length : Int) = 8 := by decide
      rw [hlen]
      have htn : (((j : Nat) : Int) + 8).toNat = j + 8 := by omega
      rw [htn]
    refine ⟨hstrip, ?_, ?_⟩
    · simp [Groq.askOutcome, Groq.askText, hstrip]
    · intro p hne
      have hbe : (trimStart (v.drop (j + 8)) == ([] : List Char)) = false := by
        cases hb : (trimStart (v.drop (j + 8)) == ([] : List Char)) with
        | false => rfl
        | true => exact absurd (eq_of_beq hb) hne
      simp [Groq.askJsonOutcome, hstrip, hbe]
  · intro v hnot
    have hstrip : stripThinking (some v) = some v := by
      have hunfold : stripThinking (some v) =
          if thinkOpenTag.isPrefixOf v then
            some (trimStart
              (v.drop (lastIndexOf v thinkCloseTag + (thinkCloseTag.length : Int)).toNat))
          else some v := rfl
      rw [hunfold, if_neg]
      rw [hnot]
      exact Bool.false_ne_true
    exact ⟨hstrip, by simp [Groq.askOutcome, Groq.askText, hstrip]⟩

/-- Witness for C9: a response whose reasoning block is followed by
text is stripped and trimmed; a response with a closing marker but no
leading opening marker passes through. -/
theorem groq_strip_thinking_spec_witness :
    stripThinking (some "<think>x</think> ok".data) = some "ok".data ∧
    stripThinking (some "a</think>b".data) = some "a</think>b".data := by
  constructor
  · have h := (groq_strip_thinking_spec.1 "<think>x</think> ok".data 8
      (by decide) (by decide) (by decide)).1
    rw [h]
    decide
  · exact (groq_strip_thinking_spec.2 "a</think>b".data (by decide)).1

/-- C1 counterexample: a Claude conversation holding a system message
with content A, normalized together with instructions B, yields the
side-channel value A alone, not the claimed A-newline-newline-B. -/
theorem system_merge_counterexample :
    (Claude.prepareMessages [⟨Role.system, "A"⟩] (some "B")).system = some "A" ∧
    ("A" : String) ≠ "A" ++ "\n\n" ++ "B" := by
  refine ⟨by decide, by decide⟩

/-- C1 amended: for Claude an existing system message becomes the
side-channel value unchanged (instructions are ignored, not appended)
and the outgoing list carries no system role; for Gemini truthy
instructions win over the existing system message; for Groq (no
side-channel) truthy instructions are appended to the existing system
message, yielding A-newline-newline-B. -/
theorem system_merge_amended :
    (∀ (A B : String) (tail : List Message),
      (Claude.prepareMessages (⟨Role.system, A⟩ :: tail) (some B)).system = some A) ∧
    (∀ (msgs : List Message) (sp : Option String),
      ((Claude.prepareMessages msgs sp).messages.all
        (fun m => !(m.role == Role.system))) = true) ∧
    (∀ (A B : String) (tail : List Message),
      Gemini.extractSystemPrompt (⟨Role.system, A⟩ :: tail) (some B) =
        if strTruthy (some B) then some B else some A) ∧
    (∀ (A B : String) (tail : List Message),
      (Groq.prepareMessages { messages := some (⟨Role.system, A⟩ :: tail) }
          (some B)).head? =
        if strTruthy (some B) then some ⟨Role.system, A ++ "\n\n" ++ B⟩
        else some ⟨Role.system, A⟩) := by
  have hclauderole : ∀ r : Role, (!(Claude.mapClaudeRole r == Role.system)) = true := by
    intro r
    cases r <;> rfl
  refine ⟨?_, ?_, ?_, ?_⟩
  · intro A B tail
    simp [Claude.prepareMessages, List.findIdx?_cons]
  · intro msgs sp
    cases hidx : msgs.findIdx? (fun msg => msg.role == Role.system) with
    | none =>
      simp only [Claude.prepareMessages, hidx]
      exact all_map_of_forall
        (fun msg => (⟨Claude.mapClaudeRole msg.role, msg.content⟩ : Message))
        (fun m => !(m.role == Role.system)) (fun a => hclauderole a.role) msgs
    | some i =>
      simp only [Claude.prepareMessages, hidx]
      exact all_map_of_forall
        (fun msg => (⟨Claude.mapClaudeRole msg.role, msg.content⟩ : Message))
        (fun m => !(m.role == Role.system)) (fun a => hclauderole a.role) (msgs.eraseIdx i)
  · intro A B tail
    cases h : strTruthy (some B) with
    | true => simp [Gemini.extractSystemPrompt, h]
    | false =>
      simp only [Gemini.extractSystemPrompt, h, Bool.false_eq_true, if_false]
      rw [List.find?_cons_of_pos _ (by rfl)]
      rfl
  · intro A B tail
    cases h : strTruthy (some B) with
    | true =>
      simp [Groq.prepareMessages, h]
      rfl
    | false =>
      simp [Groq.prepareMessages, h]
      rfl

/-- C4 counterexample: with two pre-existing system messages A and B,
Claude honors only the first: the effective system text is A alone
(not a concatenation) and B is downgraded to a user message. -/
theorem multiple_system_counterexample :
    (Claude.prepareMessages [⟨Role.system, "A"⟩, ⟨Role.system, "B"⟩] none).system = some "A" ∧
    (Claude.prepareMessages [⟨Role.system, "A"⟩, ⟨Role.system, "B"⟩] none).messages =
      [⟨Role.user, "B"⟩] ∧
    ("A" : String) ≠ "A" ++ "\n\n" ++ "B" := by
  refine ⟨by decide, by decide, by decide⟩

/-- C4 amended: only the first pre-existing system message is honored
as the effective system text; no concatenation occurs.  Claude extracts
the first and downgrades the rest to user; Gemini extracts the first
and drops all system entries from the content list; Groq leaves the
multiple system messages in place unchanged. -/
theorem multiple_system_amended :
    (∀ (A B : String) (tail : List Message),
      (Claude.prepareMessages
        (⟨Role.system, A⟩ :: ⟨Role.system, B⟩ :: tail) none).system = some A) ∧
    (∀ (A B : String) (tail : List Message),
      (Claude.prepareMessages
        (⟨Role.system, A⟩ :: ⟨Role.system, B⟩ :: tail) none).messages.head? =
          some ⟨Role.user, B⟩) ∧
    (∀ (A B : String) (tail : List Message),
      Gemini.extractSystemPrompt
        (⟨Role.system, A⟩ :: ⟨Role.system, B⟩ :: tail) none = some A) ∧
    (∀ (A : String) (msgs : List Message),
      Gemini.prepareMessages (⟨Role.system, A⟩ :: msgs) = Gemini.prepareMessages msgs) ∧
    (∀ (A B : String) (tail : List Message),
      Groq.prepareMessages
          { messages := some (⟨Role.system, A⟩ :: ⟨Role.system, B⟩ :: tail) } none =
        ⟨Role.system, A⟩ :: ⟨Role.system, B⟩ ::
          tail.map (fun msg => ⟨Groq.mapGroqRole msg.role, msg.content⟩)) := by
  refine ⟨?_, ?_, ?_, ?_, ?_⟩
  · intro A B tail
    simp [Claude.prepareMessages, List.findIdx?_cons]
  · intro A B tail
    simp [Claude.prepareMessages, List.findIdx?_cons]
    rfl
  · intro A B tail
    simp only [Gemini.extractSystemPrompt, strTruthy, Bool.false_eq_true, if_false]
    rw [List.find?_cons_of_pos _ (by rfl)]
    rfl
  · intro A msgs
    simp [Gemini.prepareMessages, List.filter_cons]
  · intro A B tail
    simp only [Groq.prepareMessages, strTruthy, Bool.false_eq_true, if_false,
      Option.getD_some, List.map_cons]
    rfl

/-- C5 counterexample: Mistral rewrites the function role to tool, not
to user, and keeps tool messages as tool. -/
theorem role_downgrade_counterexample :
    Mistral.prepareMessages [⟨Role.function, "x"⟩] none = [⟨Role.tool, "x"⟩] ∧
    Mistral.prepareMessages [⟨Role.tool, "y"⟩] none = [⟨Role.tool, "y"⟩] ∧
    Role.tool ≠ Role.user := by
  refine ⟨by decide, by decide, by decide⟩

/-- C5 amended: Groq, OpenAI, Claude and Gemini rewrite tool and
function roles to user, preserving content and order (the output is the
elementwise role-mapped input when no instructions are supplied); the
Mistral client instead rewrites function to tool and keeps tool, tool
being in its natively supported role set; in every client the
normalized list only carries roles the provider accepts. -/
theorem role_downgrade_amended :
    (∀ msgs : List Message,
      Groq.prepareMessages { messages := some msgs } none =
        msgs.map (fun m => ⟨Groq.mapGroqRole m.role, m.content⟩)) ∧
    (Groq.mapGroqRole Role.tool = Role.user ∧ Groq.mapGroqRole Role.function = Role.user) ∧
    (∀ (ap : AskParameters) (sp : Option String),
      ((Groq.prepareMessages ap sp).all
        (fun m => m.role == Role.system || m.role == Role.user ||
          m.role == Role.assistant)) = true) ∧
    (∀ msgs : List Message,
      OpenAi.prepareMessages msgs none =
        msgs.map (fun m => ⟨OpenAi.mapOpenAiRole m.role, m.content⟩)) ∧
    (OpenAi.mapOpenAiRole Role.tool = Role.user ∧
      OpenAi.mapOpenAiRole Role.function = Role.user) ∧
    (∀ (msgs : List Message) (sp : Option String),
      ((OpenAi.prepareMessages msgs sp).all
        (fun m => m.role == Role.system || m.role == Role.user ||
          m.role == Role.assistant)) = true) ∧
    (∀ (msgs : List Message) (sp : Option String),
      ((Claude.prepareMessages msgs sp).messages.all
        (fun m => m.role == Role.user || m.role == Role.assistant)) = true) ∧
    (∀ msgs : List Message,
      Mistral.prepareMessages msgs none =
        msgs.map (fun m => ⟨Mistral.mapMistralRole m.role, m.content⟩)) ∧
    (Mistral.mapMistralRole Role.function = Role.tool ∧
      Mistral.mapMistralRole Role.tool = Role.tool) ∧
    (∀ (msgs : List Message) (sp : Option String),
      ((Mistral.prepareMessages msgs sp).all
        (fun m => !(m.role == Role.function))) = true) ∧
    (∀ msgs : List Message,
      ((Gemini.prepareMessages msgs).all
        (fun c => c.role == "user" || c.role == "model")) = true) := by
  have hgroq : ∀ r : Role,
      ((Groq.mapGroqRole r == Role.system) || (Groq.mapGroqRole r == Role.user) ||
        (Groq.mapGroqRole r == Role.assistant)) = true := by
    intro r
    cases r <;> rfl
  have hopenai : ∀ r : Role,
      ((OpenAi.mapOpenAiRole r == Role.system) || (OpenAi.mapOpenAiRole r == Role.user) ||
        (OpenAi.mapOpenAiRole r == Role.assistant)) = true := by
    intro r
    cases r <;> rfl
  have hclaude : ∀ r : Role,
      ((Claude.mapClaudeRole r == Role.user) ||
        (Claude.mapClaudeRole r == Role.assistant)) = true := by
    intro r
    cases r <;> rfl
  have hmistral : ∀ r : Role, (!(Mistral.mapMistralRole r == Role.function)) = true := by
    intro r
    cases r <;> rfl
  refine ⟨?_, ⟨rfl, rfl⟩, ?_, ?_, ⟨rfl, rfl⟩, ?_, ?_, ?_, ⟨rfl, rfl⟩, ?_, ?_⟩
  · intro msgs
    rfl
  · intro ap sp
    unfold Groq.prepareMessages
    refine all_map_of_forall
      (fun (msg : Message) => (⟨Groq.mapGroqRole msg.role, msg.content⟩ : Message))
      (fun (m : Message) => m.role == Role.system || m.role == Role.user ||
        m.role == Role.assistant)
      (fun (a : Message) => hgroq a.role) _
  · intro msgs
    rfl
  · intro msgs sp
    unfold OpenAi.prepareMessages
    refine all_map_of_forall
      (fun (msg : Message) => (⟨OpenAi.mapOpenAiRole msg.role, msg.content⟩ : Message))
      (fun (m : Message) => m.role == Role.system || m.role == Role.user ||
        m.role == Role.assistant)
      (fun (a : Message) => hopenai a.role) _
  · intro msgs sp
    cases hidx : msgs.findIdx? (fun msg => msg.role == Role.system) with
    | none =>
      simp only [Claude.prepareMessages, hidx]
      exact all_map_of_forall
        (fun msg => (⟨Claude.mapClaudeRole msg.role, msg.content⟩ : Message))
        (fun m => m.role == Role.user || m.role == Role.assistant)
        (fun a => hclaude a.role) msgs
    | some i =>
      simp only [Claude.prepareMessages, hidx]
      exact all_map_of_forall
        (fun msg => (⟨Claude.mapClaudeRole msg.role, msg.content⟩ : Message))
        (fun m => m.role == Role.user || m.role == Role.assistant)
        (fun a => hclaude a.role) (msgs.eraseIdx i)
  · intro msgs
    rfl
  · intro msgs sp
    unfold Mistral.prepareMessages
    refine all_map_of_forall
      (fun (msg : Message) => (⟨Mistral.mapMistralRole msg.role, msg.content⟩ : Message))
      (fun (m : Message) => !(m.role == Role.function))
      (fun (a : Message) => hmistral a.role) _
  · intro msgs
    unfold Gemini.prepareMessages
    refine all_map_of_forall _
      (fun (c : Gemini.GeminiContent) => c.role == "user" || c.role == "model") ?_ _
    intro a
    rcases a with ⟨r, c⟩
    cases r <;> rfl

/-- C2 counterexample: the Mistral client keeps topP in the built
request although temperature is explicitly set to the nonzero value 2
(so the zero-temperature exception does not apply). -/
theorem topp_exclusivity_counterexample :
    (Mistral.buildAskChatParams { model := Mistral.MistralModel.mistralLargeLatest } "hi"
      { temperature := some 2, topP := some 1 }).topP = some 1 ∧
    (2 : Rat) ≠ 0 := by
  refine ⟨by decide, by decide⟩

/-- C2 amended: Claude, Gemini and restriction-free OpenAI models omit
topP whenever temperature is set; Groq omits topP for nonzero
temperature but keeps it when temperature is 0; Mistral inverts the
claimed rule, omitting topP exactly when temperature is 0 and passing
it through for any nonzero temperature. -/
theorem topp_exclusivity_amended :
    (∀ (cp : Claude.ClaudeClientParameters) (ap : AskParameters) (t pv : Rat),
      (Claude.createBaseCompletionParams cp
        { ap with temperature := some t, topP := some pv }).top_p = none) ∧
    (∀ (cp : Groq.GroqClientParameters) (ap : AskParameters) (t pv : Rat),
      (Groq.createBaseCompletionParams cp
        { ap with temperature := some t, topP := some pv }).top_p =
        if t == 0 then some pv else none) ∧
    (∀ (cp : Mistral.MistralClientParameters) (input : String) (ap : AskParameters)
        (t pv : Rat),
      (Mistral.buildAskChatParams cp input
        { ap with temperature := some t, topP := some pv }).topP =
        if t == 0 then none else some pv) ∧
    (∀ (ap : AskParameters) (t pv : Rat),
      (OpenAi.createBaseCompletionParams { model := OpenAi.OpenAiModel.gpt41 }
        { ap with temperature := some t, topP := some pv }).top_p = none) ∧
    (∀ (cp : Gemini.GeminiClientParameters) (ap : AskParameters) (t pv : Rat),
      (Gemini.createGenerationConfig cp
        { ap with temperature := some t, topP := some pv }).topP = none) := by
  refine ⟨?_, ?_, ?_, ?_, ?_⟩
  · intro cp ap t pv
    simp [Claude.createBaseCompletionParams]
  · intro cp ap t pv
    cases h : (t == 0) with
    | true =>
      simp [Groq.createBaseCompletionParams, ratTruthy, h]
    | false =>
      simp [Groq.createBaseCompletionParams, ratTruthy, h]
  · intro cp input ap t pv
    cases h : (t == 0) with
    | true =>
      simp [Mistral.buildAskChatParams, some_beq_some, h]
    | false =>
      simp [Mistral.buildAskChatParams, some_beq_some, h]
  · intro ap t pv
    have hc : OpenAi.modelsWithTemperatureRestrictions.contains OpenAi.OpenAiModel.gpt41 =
        false := by decide
    simp [OpenAi.createBaseCompletionParams, hc]
  · intro cp ap t pv
    simp [Gemini.createGenerationConfig, some_beq_none]
